import Mathlib

/-!
Verification development for the stt-e2e-insights pipeline.

Shallow embedding of the async helpers (src/utils/async_helpers.py), the
CCAI uploader's LRO monitor and single-conversation upload
(src/modules/ccai_uploader.py), and the run summarizer
(src/main.py, STTInsightsPipeline._generate_summary).

An async task that has been awaited is modelled by its outcome
`Except E T`: `Except.ok v` when the coroutine returned `v`,
`Except.error e` when it raised exception `e`.  `asyncio.gather`
with `return_exceptions := True` returns one outcome per task, in input
order, which is exactly the input list of this model.
-/

namespace AsyncHelpers

/-- The accumulation loop of `AsyncTaskManager.run_tasks` (lines 50-58):
walks the gathered results with their indices, appending successes to
`successful_results` and `(index, exception)` pairs to `failed_tasks`. -/
def partitionResultsAux {E T : Type} : Nat → List (Except E T) → List T × List (Nat × E)
  | _, [] => ([], [])
  | i, r :: rest =>
    let p := partitionResultsAux (i + 1) rest
    match r with
    | Except.ok v => (v :: p.1, p.2)
    | Except.error e => (p.1, (i, e) :: p.2)

/-- The value returned by `AsyncTaskManager.run_tasks`: only
`successful_results`.  The failures are logged, not returned. -/
def run_tasks {E T : Type} (tasks : List (Except E T)) : List T :=
  (partitionResultsAux 0 tasks).1

/-- The `failed_tasks` list that `run_tasks` builds and logs
(`logger.error`, `logger.warning`) but does not return. -/
def failed_tasks {E T : Type} (tasks : List (Except E T)) : List (Nat × E) :=
  (partitionResultsAux 0 tasks).2

/-- Order-preserving selection of the successful outcomes; the loop of
`AsyncBatch._process_batch` (lines 208-214) computes exactly this. -/
def filterSuccesses {E T : Type} : List (Except E T) → List T
  | [] => []
  | Except.ok v :: rest => v :: filterSuccesses rest
  | Except.error _ :: rest => filterSuccesses rest

/-- `AsyncBatch._process_batch`: gathers `processor(item)` for each item of
the batch in order and keeps the successful results. -/
def process_batch {α E T : Type} (processor : α → Except E T) (batch : List α) : List T :=
  filterSuccesses (batch.map processor)

/-- The slicing `[items[i:i+K] for i in range(0, len(items), K)]` of
`AsyncBatch.process_items` (line 170).  In Python a step of `0` raises
`ValueError`; the `K = 0` case of this model is therefore never exercised
and returns `[]`. -/
def makeBatches {α : Type} (K : Nat) : List α → List (List α)
  | [] => []
  | x :: xs =>
    if h : K = 0 then []
    else (x :: xs).take K :: makeBatches K ((x :: xs).drop K)
termination_by l => l.length
decreasing_by
  have hK : 0 < K := Nat.pos_of_ne_zero h
  simp only [List.length_drop, List.length_cons]
  omega

/-- `AsyncBatch.process_items`: split into batches, run one
`_process_batch` coroutine per batch through `AsyncTaskManager.run_tasks`,
then flatten (`all_results.extend(batch_result)`; in this model a batch
coroutine never raises, and its result is always a list, so the
`isinstance(batch_result, list)` guard always holds). -/
def process_items {α E T : Type} (K : Nat) (processor : α → Except E T)
    (items : List α) : List T :=
  let batches := makeBatches K items
  let batch_tasks : List (Except E (List T)) :=
    batches.map (fun b => Except.ok (process_batch processor b))
  let batch_results := run_tasks batch_tasks
  batch_results.flatten

/-- Exceptions a Python caller of a tenacity-wrapped function can observe:
either an exception propagated unchanged, or a `tenacity.RetryError`
wrapping the last failed attempt. -/
inductive RetryOutcome (E A : Type) where
  | ok (a : A) (attempts : Nat)
  | raised (e : E) (attempts : Nat)
  | retryErr (last : E) (attempts : Nat)
deriving DecidableEq, Repr

/-- The attempt loop of tenacity as configured by `async_retry`
(`stop=stop_after_attempt(max_attempts)`, default `reraise=False`,
default retry-on-any-`Exception` predicate): attempt `k` runs; on success
the value is returned; on failure the loop stops as soon as
`k >= max_attempts` and raises `RetryError(last_attempt)`, otherwise it
sleeps and retries attempt `k+1`.  `fuel` is the number of retries still
allowed, so the top-level call uses `fuel = max_attempts - 1`. -/
def tenacityGo {E A : Type} (f : Nat → Except E A) : Nat → Nat → RetryOutcome E A
  | fuel, k =>
    match f k, fuel with
    | Except.ok a, _ => RetryOutcome.ok a k
    | Except.error e, 0 => RetryOutcome.retryErr e k
    | Except.error _, fuel + 1 => tenacityGo f fuel (k + 1)

/-- Behaviour of a `@async_retry(max_attempts, delay_seconds)`-decorated
function whose underlying attempts have outcomes `f 1, f 2, ...`.
`stop_after_attempt` is only consulted after a failed attempt, so attempt 1
always runs, matching tenacity. -/
def tenacityRun {E A : Type} (max_attempts : Nat) (f : Nat → Except E A) : RetryOutcome E A :=
  tenacityGo f (max_attempts - 1) 1

/-- tenacity `wait_exponential(multiplier, max, exp_base := 2, min)` at a
given `attempt_number` (the number of the attempt that just failed):
`max(max(0, min), min(multiplier * 2 ^ (attempt_number - 1), max))`.
Delays are modelled by rationals. -/
def wait_exponential (multiplier mn mx : ℚ) (attempt_number : Nat) : ℚ :=
  max (max 0 mn) (min (multiplier * 2 ^ (attempt_number - 1)) mx)

/-- The wait `async_retry(max_attempts, delay_seconds)` schedules after
failed attempt `attempt_number`, i.e. before the `attempt_number`-th retry:
`wait_exponential(multiplier=delay_seconds, min=1, max=60)`. -/
def async_retry_wait (delay_seconds : ℚ) (attempt_number : Nat) : ℚ :=
  wait_exponential delay_seconds 1 60 attempt_number

theorem partitionResultsAux_lengths {E T : Type} :
    ∀ (i : Nat) (l : List (Except E T)),
      (partitionResultsAux i l).1.length + (partitionResultsAux i l).2.length = l.length
  | _, [] => rfl
  | i, Except.ok _ :: rest => by
    have ih := partitionResultsAux_lengths (i + 1) rest
    simp [partitionResultsAux]
    omega
  | i, Except.error _ :: rest => by
    have ih := partitionResultsAux_lengths (i + 1) rest
    simp [partitionResultsAux]
    omega

theorem partitionResultsAux_fst {E T : Type} :
    ∀ (i : Nat) (l : List (Except E T)),
      (partitionResultsAux i l).1 = filterSuccesses l
  | _, [] => rfl
  | i, Except.ok _ :: rest => by
    simp [partitionResultsAux, filterSuccesses, partitionResultsAux_fst (i + 1) rest]
  | i, Except.error _ :: rest => by
    simp [partitionResultsAux, filterSuccesses, partitionResultsAux_fst (i + 1) rest]

theorem run_tasks_eq_filterSuccesses {E T : Type} (tasks : List (Except E T)) :
    run_tasks tasks = filterSuccesses tasks :=
  partitionResultsAux_fst 0 tasks

theorem filterSuccesses_append {E T : Type} :
    ∀ (l₁ l₂ : List (Except E T)),
      filterSuccesses (l₁ ++ l₂) = filterSuccesses l₁ ++ filterSuccesses l₂
  | [], _ => rfl
  | Except.ok _ :: rest, l₂ => by
    simp [filterSuccesses, filterSuccesses_append rest l₂]
  | Except.error _ :: rest, l₂ => by
    simp [filterSuccesses, filterSuccesses_append rest l₂]

theorem filterSuccesses_flatten {E T : Type} :
    ∀ (L : List (List (Except E T))),
      filterSuccesses L.flatten = (L.map filterSuccesses).flatten
  | [] => rfl
  | l :: L => by
    simp [filterSuccesses_append l L.flatten, filterSuccesses_flatten L]

theorem filterSuccesses_map_ok {α T : Type} (E : Type) :
    ∀ (g : α → T) (l : List α),
      filterSuccesses ((l.map fun x => (Except.ok (g x) : Except E T))) = l.map g
  | _, [] => rfl
  | g, _ :: xs => by
    simp [filterSuccesses, filterSuccesses_map_ok E g xs]

theorem run_tasks_map_ok {E T : Type} (l : List T) :
    run_tasks (l.map fun v => (Except.ok v : Except E T)) = l := by
  rw [run_tasks_eq_filterSuccesses]
  simpa using filterSuccesses_map_ok E id l

theorem makeBatches_flatten {α : Type} (K : Nat) (hK : K ≠ 0) :
    ∀ (l : List α), (makeBatches K l).flatten = l
  | [] => by simp [makeBatches]
  | x :: xs => by
    rw [makeBatches]
    simp only [hK, dif_neg, not_false_iff, List.flatten_cons]
    rw [makeBatches_flatten K hK ((x :: xs).drop K)]
    exact List.take_append_drop K (x :: xs)
termination_by l => l.length
decreasing_by
  simp only [List.length_drop, List.length_cons]
  have : 0 < K := Nat.pos_of_ne_zero hK
  omega

theorem makeBatches_length {α : Type} (K : Nat) (hK : K ≠ 0) :
    ∀ (l : List α), (makeBatches K l).length = (l.length + K - 1) / K
  | [] => by
    have : K - 1 < K := Nat.sub_lt (Nat.pos_of_ne_zero hK) Nat.one_pos
    simp [makeBatches, Nat.div_eq_of_lt this]
  | x :: xs => by
    rw [makeBatches]
    simp only [hK, dif_neg, not_false_iff, List.length_cons]
    rw [makeBatches_length K hK ((x :: xs).drop K)]
    have hlen : ((x :: xs).drop K).length = xs.length + 1 - K := by
      simp [List.length_drop]
    rw [hlen]
    have hK1 : 0 < K := Nat.pos_of_ne_zero hK
    have harg : xs.length + 1 - K + K - 1 = xs.length + 1 - 1 ∨
        (xs.length + 1 - K + K - 1 < K ∧ xs.length + 1 - 1 < K) := by omega
    have hsum : xs.length + 1 + K - 1 = (xs.length + 1 - 1) + K := by omega
    rw [hsum, Nat.add_div_right _ hK1]
    rcases harg with h | ⟨h₁, h₂⟩
    · rw [h]
    · rw [Nat.div_eq_of_lt h₁, Nat.div_eq_of_lt h₂]
termination_by l => l.length
decreasing_by
  simp only [List.length_drop, List.length_cons]
  have : 0 < K := Nat.pos_of_ne_zero hK
  omega

theorem tenacityGo_always_fail {E A : Type} (f : Nat → Except E A)
    (errs : Nat → E) (hf : ∀ k, f k = Except.error (errs k)) :
    ∀ (fuel k : Nat), tenacityGo f fuel k = RetryOutcome.retryErr (errs (k + fuel)) (k + fuel)
  | 0, k => by simp [tenacityGo, hf k]
  | fuel + 1, k => by
    have ih := tenacityGo_always_fail f errs hf fuel (k + 1)
    rw [show k + (fuel + 1) = k + 1 + fuel by omega]
    simp [tenacityGo, hf k, ih]

theorem tenacityGo_fail_then_succeed {E A : Type} (f : Nat → Except E A)
    (m : Nat) (v : A)
    (hfail : ∀ j, 1 ≤ j → j < m → ∃ e, f j = Except.error e)
    (hsucc : f m = Except.ok v) :
    ∀ (fuel k : Nat), 1 ≤ k → k + fuel = m → tenacityGo f fuel k = RetryOutcome.ok v m
  | 0, k, _, hk => by
    have hk0 : k = m := by omega
    subst hk0
    simp [tenacityGo, hsucc]
  | fuel + 1, k, hk1, hk => by
    obtain ⟨e, he⟩ := hfail k hk1 (by omega)
    have ih := tenacityGo_fail_then_succeed f m v hfail hsucc fuel (k + 1) (by omega) (by omega)
    simp [tenacityGo, he, ih]

end AsyncHelpers

namespace PyStr

/-- Does `hay` start with `needle`? -/
def listStartsWith : List Char → List Char → Bool
  | [], _ => true
  | _ :: _, [] => false
  | a :: as, b :: bs => a == b && listStartsWith as bs

/-- Python substring containment `needle in hay`. -/
def containsSub (needle : List Char) : List Char → Bool
  | [] => listStartsWith needle []
  | c :: rest => listStartsWith needle (c :: rest) || containsSub needle rest

/-- Python `needle in hay` on strings. -/
def pyIn (needle hay : String) : Bool :=
  containsSub needle.data hay.data

/-- Maximal leading digit run of a character list, and the remainder. -/
def takeDigits : List Char → List Char × List Char
  | [] => ([], [])
  | c :: cs =>
    if c.isDigit then
      let p := takeDigits cs
      (c :: p.1, p.2)
    else ([], c :: cs)

/-- Decimal value of a digit list. -/
def digitsToNat (ds : List Char) : Nat :=
  ds.foldl (fun n c => n * 10 + (c.toNat - 48)) 0

/-- Model of `re.search` for a pattern of shape `(\d+)<lit>` where `lit`
starts with a non-digit: scan the haystack left to right; at the first
position where a digit run is immediately followed by `lit`, return the
value of that run.  (Backtracking inside the greedy `\d+` cannot help,
because every proper prefix of the run is followed by a digit while `lit`
is not.) -/
def searchNumBefore (lit : List Char) : List Char → Option Nat
  | [] => none
  | c :: cs =>
    if c.isDigit then
      let p := takeDigits (c :: cs)
      if listStartsWith lit p.2 then some (digitsToNat p.1)
      else searchNumBefore lit cs
    else searchNumBefore lit cs

end PyStr

namespace CCAIUploader

open PyStr

/-- The four counters of `IngestConversationsMetadata.ingest_conversations_stats`. -/
structure IngestStats where
  successful_ingest_count : Nat
  failed_ingest_count : Nat
  duplicates_skipped_count : Nat
  processed_object_count : Nat
deriving DecidableEq, Repr

/-- Operation metadata as `_monitor_ingestion_operation` probes it:
`ingest_conversations_stats` when the attribute is present, and the four
flat `getattr(metadata, field, 0)` lookups, an absent flat attribute being
modelled by its default `0`. -/
structure OperationMetadata where
  ingest_conversations_stats : Option IngestStats
  flat : IngestStats
deriving DecidableEq, Repr

/-- Outcome of `operation.result(timeout=900)`: either the operation
completed (with the operation's metadata, possibly absent), or the wait
raised — an operation error or the 900 s timeout, identified only by the
exception's message string. -/
inductive OperationWait where
  | completed (metadata : Option OperationMetadata)
  | raised (msg : String)
deriving DecidableEq, Repr

/-- The result dictionary built by `_monitor_ingestion_operation`; keys
that some branches omit are `Option`-valued (`none` = key absent). -/
structure IngestResult where
  success : Bool
  operation_name : String
  conversations_ingested : Nat
  failed_conversations : Nat
  duplicate_conversations : Option Nat
  total_processed : Option Nat
  lro_completed : Bool
  error : Option String
  note : Option String
  deduplication_message : Option String
deriving DecidableEq, Repr

/-- The 15-minute wall-clock bound passed to `operation.result`. -/
def timeout_seconds : Nat := 900

/-- `CCAIUploader._monitor_ingestion_operation` (lines 1010-1156).
On completion: try `metadata.ingest_conversations_stats` first; else the
flat attribute lookups, used only when some counter is nonzero
(`any([...])`); else the `raise`/`except metadata_error` fallback that
infers one successful unit; with no metadata at all, report zero ingested.
On a raised wait error: reclassify as successful deduplication when the
message carries the duplicate-skip phrasing, extracting both counts with
`re.search`; otherwise return the generic failure result. -/
def monitor_ingestion_operation (operation_name : String) (wait : OperationWait) :
    IngestResult :=
  match wait with
  | OperationWait.completed metadata =>
    match metadata with
    | some md =>
      match md.ingest_conversations_stats with
      | some stats =>
        { success := true
          operation_name := operation_name
          conversations_ingested := stats.successful_ingest_count
          failed_conversations := stats.failed_ingest_count
          duplicate_conversations := some stats.duplicates_skipped_count
          total_processed := some stats.processed_object_count
          lro_completed := true
          error := none
          note := none
          deduplication_message := none }
      | none =>
        let s := md.flat
        if s.successful_ingest_count ≠ 0 ∨ s.failed_ingest_count ≠ 0 ∨
            s.duplicates_skipped_count ≠ 0 ∨ s.processed_object_count ≠ 0 then
          { success := true
            operation_name := operation_name
            conversations_ingested := s.successful_ingest_count
            failed_conversations := s.failed_ingest_count
            duplicate_conversations := some s.duplicates_skipped_count
            total_processed := some s.processed_object_count
            lro_completed := true
            error := none
            note := none
            deduplication_message := none }
        else
          { success := true
            operation_name := operation_name
            conversations_ingested := 1
            failed_conversations := 0
            duplicate_conversations := some 0
            total_processed := some 1
            lro_completed := true
            error := none
            note := some "Metadata parsing failed, inferred success from LRO completion"
            deduplication_message := none }
    | none =>
      { success := true
        operation_name := operation_name
        conversations_ingested := 0
        failed_conversations := 0
        duplicate_conversations := none
        total_processed := none
        lro_completed := true
        error := none
        note := none
        deduplication_message := none }
  | OperationWait.raised msg =>
    if pyIn "already exist" msg && pyIn "were skipped" msg then
      let skipped_count :=
        (searchNumBefore " were skipped as they already exist".data msg.data).getD 0
      let failed_count := (searchNumBefore " failed".data msg.data).getD 0
      { success := true
        operation_name := operation_name
        conversations_ingested := 0
        failed_conversations := failed_count
        duplicate_conversations := some skipped_count
        total_processed := some (skipped_count + failed_count)
        lro_completed := true
        error := none
        note := none
        deduplication_message := some msg }
    else
      { success := false
        operation_name := operation_name
        conversations_ingested := 0
        failed_conversations := 0
        duplicate_conversations := none
        total_processed := none
        lro_completed := false
        error := some msg
        note := none
        deduplication_message := none }

/-- Fields of the `create_conversation` response that
`upload_conversation` copies into its result dictionary; the
`.isoformat()` / `.name` projections are modelled as already-rendered
optional strings. -/
structure CreateResponse where
  name : String
  create_time : Option String
  state : Option String
  medium : Option String
deriving DecidableEq, Repr

/-- The result dictionary of `CCAIUploader.upload_conversation`. -/
structure UploadResult where
  success : Bool
  conversation_id : String
  conversation_name : Option String
  create_time : Option String
  state : Option String
  medium : Option String
  error : Option String
deriving DecidableEq, Repr

/-- Python `s.split(sep)[-1]`: `String.splitOn` never returns `[]`,
mirroring `''.split(sep) == ['']`. -/
def lastSplitPart (sep s : String) : String :=
  (s.splitOn sep).getLastD ""

/-- `CCAIUploader.upload_conversation` (lines 141-197), pure core.
`construct` is the outcome of `_create_conversation_object` and `call`
the outcome of the remote `create_conversation`; both run inside the
`try`, and any exception from either is converted into a result with
`success=False` carrying the exception message — never re-raised. -/
def upload_conversation {Conv : Type} (conversation_data_name : String)
    (construct : Except String Conv)
    (call : Conv → Except String CreateResponse) : UploadResult :=
  let conversation_id := lastSplitPart "/" conversation_data_name
  let failure : String → UploadResult := fun error_msg =>
    { success := false
      conversation_id := conversation_id
      conversation_name := none
      create_time := none
      state := none
      medium := none
      error := some error_msg }
  match construct with
  | Except.error e => failure e
  | Except.ok conv =>
    match call conv with
    | Except.error e => failure e
    | Except.ok response =>
      { success := true
        conversation_id := conversation_id
        conversation_name := some response.name
        create_time := response.create_time
        state := response.state
        medium := response.medium
        error := none }

end CCAIUploader

namespace MainPipeline

/-- What `_generate_summary` reads off one successful per-file result:
the nested `upload_result.success` flag, defaulting to `False`. -/
structure FileResult where
  upload_result_success : Bool
deriving DecidableEq, Repr

/-- `total_files = len(successful_results) + len(failed_results)`. -/
def total_files {α β : Type} (successful_results : List α) (failed_results : List β) : Nat :=
  successful_results.length + failed_results.length

/-- `success_rate = (len(successful) / total * 100) if total > 0 else 0`,
with exact rational division in place of Python floats. -/
def success_rate {α β : Type} (successful_results : List α) (failed_results : List β) : ℚ :=
  if 0 < total_files successful_results failed_results then
    (successful_results.length : ℚ) / (total_files successful_results failed_results : ℚ) * 100
  else 0

/-- `successful_uploads = sum(1 for r in successful_results if upload_result.success)`. -/
def successful_uploads (successful_results : List FileResult) : Nat :=
  (successful_results.filter (fun r => r.upload_result_success)).length

/-- `upload_success_rate = (successful_uploads / len(successful_results) * 100) if successful_results else 0`. -/
def upload_success_rate (successful_results : List FileResult) : ℚ :=
  if successful_results ≠ [] then
    (successful_uploads successful_results : ℚ) / (successful_results.length : ℚ) * 100
  else 0

end MainPipeline

/-!
Claim theorems.
-/

open AsyncHelpers PyStr CCAIUploader MainPipeline

/-- C1 (amended): `run_tasks` accounts for every input item — the number
of successful results plus the number of logged failures equals the input
count, and the returned list is exactly the successful outcomes in order;
but the caller receives only that list of successes, the failure
count/detail being logged rather than returned. -/
theorem C1_run_tasks_accounting {E T : Type} (tasks : List (Except E T)) :
    (run_tasks tasks).length + (failed_tasks tasks).length = tasks.length ∧
    run_tasks tasks = filterSuccesses tasks :=
  ⟨partitionResultsAux_lengths 0 tasks, run_tasks_eq_filterSuccesses tasks⟩

/-- C1 counterexample: two task lists with different failure counts and
details give `run_tasks` return values that are identical, so the value a
caller receives from `run_tasks` carries neither the count nor the detail
of the failures. -/
theorem C1_counterexample :
    run_tasks ([Except.ok 1] : List (Except String Nat)) =
      run_tasks [Except.ok 1, Except.error "boom"] ∧
    (failed_tasks ([Except.ok 1] : List (Except String Nat))).length = 0 ∧
    (failed_tasks ([Except.ok 1, Except.error "boom"] : List (Except String Nat))).length = 1 :=
  ⟨rfl, rfl, rfl⟩

/-- C2: an ingestion-wait error whose message is
"0 failed and 2 were skipped as they already exist" is reclassified by
`_monitor_ingestion_operation` as a success-shaped outcome with
`duplicate_conversations = 2`, `failed_conversations = 0` and no error,
the counts being extracted from the message by the regex model. -/
theorem C2_duplicate_skip_reclassification :
    (monitor_ingestion_operation "op"
      (OperationWait.raised "0 failed and 2 were skipped as they already exist")).success
        = true ∧
    (monitor_ingestion_operation "op"
      (OperationWait.raised "0 failed and 2 were skipped as they already exist")).duplicate_conversations
        = some 2 ∧
    (monitor_ingestion_operation "op"
      (OperationWait.raised "0 failed and 2 were skipped as they already exist")).failed_conversations
        = 0 ∧
    (monitor_ingestion_operation "op"
      (OperationWait.raised "0 failed and 2 were skipped as they already exist")).error
        = none :=
  ⟨rfl, rfl, rfl, rfl⟩

/-- C3 (amended): for `max_attempts ≥ 1`, a wrapped operation failing on
the first `max_attempts - 1` attempts and succeeding on attempt
`max_attempts` returns the success value after exactly `max_attempts`
attempts; one failing on every attempt stops after exactly `max_attempts`
attempts and raises a `tenacity.RetryError` wrapping the last error
(`reraise` keeps its default `False`), rather than propagating the last
error to the caller unchanged. -/
theorem C3_retry_semantics {E A : Type} (max_attempts : Nat)
    (f : Nat → Except E A) (errs : Nat → E) (v : A) (hmax : 1 ≤ max_attempts) :
    ((∀ k, 1 ≤ k → k < max_attempts → f k = Except.error (errs k)) →
      f max_attempts = Except.ok v →
      tenacityRun max_attempts f = RetryOutcome.ok v max_attempts) ∧
    ((∀ k, f k = Except.error (errs k)) →
      tenacityRun max_attempts f =
        RetryOutcome.retryErr (errs max_attempts) max_attempts) := by
  constructor
  · intro hfail hsucc
    exact tenacityGo_fail_then_succeed f max_attempts v
      (fun j h1 h2 => ⟨errs j, hfail j h1 h2⟩) hsucc (max_attempts - 1) 1 le_rfl (by omega)
  · intro hfail
    have h := tenacityGo_always_fail f errs hfail (max_attempts - 1) 1
    rw [show 1 + (max_attempts - 1) = max_attempts by omega] at h
    exact h

/-- Error message of the k-th simulated attempt. -/
def retryDemoErrs (k : Nat) : String := "boom " ++ toString k

/-- A simulated operation that fails on every attempt. -/
def retryDemoFail (k : Nat) : Except String Nat := Except.error (retryDemoErrs k)

/-- A simulated operation that fails on attempts 1 and 2 and succeeds on
attempt 3. -/
def retryDemoFlaky (k : Nat) : Except String Nat :=
  if k < 3 then Except.error (retryDemoErrs k) else Except.ok 42

/-- C3 witness: with `max_attempts = 3`, the fail-fail-succeed operation
returns 42 after exactly 3 attempts, and the always-failing operation ends
in a `RetryError` wrapping the third error after exactly 3 attempts. -/
theorem C3_retry_semantics_witness :
    tenacityRun 3 retryDemoFlaky = RetryOutcome.ok 42 3 ∧
    tenacityRun 3 retryDemoFail = RetryOutcome.retryErr (retryDemoErrs 3) 3 := by
  constructor
  · exact (C3_retry_semantics 3 retryDemoFlaky retryDemoErrs 42 (by norm_num)).1
      (fun k _ h2 => by simp [retryDemoFlaky, h2]) (by simp [retryDemoFlaky])
  · exact (C3_retry_semantics 3 retryDemoFail retryDemoErrs 42 (by norm_num)).2
      (fun k => rfl)

/-- C3 counterexample: after `max_attempts = 2` consecutive failures the
wrapper's outcome is a `RetryError` wrapping the last error — a different
exception from the last error propagated unchanged. -/
theorem C3_counterexample :
    tenacityRun 2 retryDemoFail = RetryOutcome.retryErr (retryDemoErrs 2) 2 ∧
    (RetryOutcome.retryErr (retryDemoErrs 2) 2 : RetryOutcome String Nat) ≠
      RetryOutcome.raised (retryDemoErrs 2) 2 :=
  ⟨rfl, by simp⟩

/-- C4: on terminal success the monitor extracts the counters from
`metadata.ingest_conversations_stats` when present; otherwise from the
flat attribute lookups when some counter is nonzero — in particular flat
counters (3, 1, 0, 4) yield ingested 3, failed 1, duplicates 0; and only
when both strategies fail does it fall back to reporting exactly one unit
succeeded, with an explanatory note. -/
theorem C4_stats_extraction :
    (∀ (name : String) (stats flat : IngestStats),
      monitor_ingestion_operation name
          (OperationWait.completed (some ⟨some stats, flat⟩)) =
        { success := true
          operation_name := name
          conversations_ingested := stats.successful_ingest_count
          failed_conversations := stats.failed_ingest_count
          duplicate_conversations := some stats.duplicates_skipped_count
          total_processed := some stats.processed_object_count
          lro_completed := true
          error := none
          note := none
          deduplication_message := none }) ∧
    ((monitor_ingestion_operation "op"
        (OperationWait.completed (some ⟨none, ⟨3, 1, 0, 4⟩⟩))).conversations_ingested = 3 ∧
     (monitor_ingestion_operation "op"
        (OperationWait.completed (some ⟨none, ⟨3, 1, 0, 4⟩⟩))).failed_conversations = 1 ∧
     (monitor_ingestion_operation "op"
        (OperationWait.completed (some ⟨none, ⟨3, 1, 0, 4⟩⟩))).duplicate_conversations = some 0 ∧
     (monitor_ingestion_operation "op"
        (OperationWait.completed (some ⟨none, ⟨3, 1, 0, 4⟩⟩))).success = true) ∧
    ((monitor_ingestion_operation "op"
        (OperationWait.completed (some ⟨none, ⟨0, 0, 0, 0⟩⟩))).conversations_ingested = 1 ∧
     (monitor_ingestion_operation "op"
        (OperationWait.completed (some ⟨none, ⟨0, 0, 0, 0⟩⟩))).note =
          some "Metadata parsing failed, inferred success from LRO completion") := by
  refine ⟨fun name stats flat => rfl, ⟨?_, ?_, ?_, ?_⟩, ⟨?_, ?_⟩⟩ <;> rfl

/-- An exception message as raised when the 900 s wait on the operation
expires. -/
def timeoutDemoMsg : String :=
  "Operation did not complete within the designated timeout of 900 seconds"

/-- An exception message of a hard (non-timeout, non-duplicate) failure. -/
def hardFailureDemoMsg : String := "PermissionDenied: 403 IAM permission denied"

/-- The monitor's result with the error message erased, i.e. the shape of
the outcome a caller can branch on without parsing the message text. -/
def eraseError (r : IngestResult) : IngestResult := { r with error := none }

/-- C5 counterexample: a timeout of the 900 s wait yields `success = false`,
`lro_completed = false`, and — once the free-text error message is erased —
exactly the same outcome as a hard failure: there is no TimedOut outcome
distinct from Failed. -/
theorem C5_counterexample :
    (monitor_ingestion_operation "op" (OperationWait.raised timeoutDemoMsg)).success = false ∧
    (monitor_ingestion_operation "op" (OperationWait.raised timeoutDemoMsg)).lro_completed = false ∧
    eraseError (monitor_ingestion_operation "op" (OperationWait.raised timeoutDemoMsg)) =
      eraseError (monitor_ingestion_operation "op" (OperationWait.raised hardFailureDemoMsg)) :=
  ⟨rfl, rfl, rfl⟩

/-- C5 (amended): the wall-clock bound on the ingestion wait is 900
seconds, and when the wait raises — the timeout included — with a message
that does not match the duplicate-skip phrasing, the monitor returns the
single generic failure outcome (`success = false`, `lro_completed = false`,
the message in `error`); a timeout is not distinguished from a hard
failure except by the error string. -/
theorem C5_timeout_is_generic_failure :
    timeout_seconds = 900 ∧
    ∀ (name msg : String),
      (pyIn "already exist" msg && pyIn "were skipped" msg) = false →
      monitor_ingestion_operation name (OperationWait.raised msg) =
        { success := false
          operation_name := name
          conversations_ingested := 0
          failed_conversations := 0
          duplicate_conversations := none
          total_processed := none
          lro_completed := false
          error := some msg
          note := none
          deduplication_message := none } := by
  refine ⟨rfl, fun name msg h => ?_⟩
  simp [monitor_ingestion_operation, h]

/-- C5 witness: the amended theorem applied to the concrete timeout
message. -/
theorem C5_timeout_is_generic_failure_witness :
    (pyIn "already exist" timeoutDemoMsg && pyIn "were skipped" timeoutDemoMsg) = false ∧
    monitor_ingestion_operation "op" (OperationWait.raised timeoutDemoMsg) =
      { success := false
        operation_name := "op"
        conversations_ingested := 0
        failed_conversations := 0
        duplicate_conversations := none
        total_processed := none
        lro_completed := false
        error := some timeoutDemoMsg
        note := none
        deduplication_message := none } :=
  ⟨rfl, C5_timeout_is_generic_failure.2 "op" timeoutDemoMsg rfl⟩

/-- C6: with chunk size `K ≥ 1`, `process_items` splits the `N` items into
`ceil(N/K)` order-preserving chunks, and its flattened output equals the
result of one unchunked scheduler call over all `N` items; when every item
succeeds, `output[i]` is the result of `input[i]`. -/
theorem C6_batch_splitter {α E T : Type} (K : Nat) (hK : 1 ≤ K)
    (items : List α) (processor : α → Except E T) :
    (makeBatches K items).length = (items.length + K - 1) / K ∧
    process_items K processor items = run_tasks (items.map processor) ∧
    ∀ g : α → T,
      process_items K (fun x => (Except.ok (g x) : Except E T)) items = items.map g := by
  have hK0 : K ≠ 0 := by omega
  have hmain : ∀ (proc : α → Except E T),
      process_items K proc items = run_tasks (items.map proc) := by
    intro proc
    simp only [process_items]
    rw [run_tasks_eq_filterSuccesses (items.map proc),
      run_tasks_eq_filterSuccesses,
      filterSuccesses_map_ok E (process_batch proc) (makeBatches K items)]
    rw [show (makeBatches K items).map (process_batch proc) =
        ((makeBatches K items).map (List.map proc)).map filterSuccesses by
      rw [List.map_map]; rfl]
    rw [← filterSuccesses_flatten, ← List.map_flatten, makeBatches_flatten K hK0]
  refine ⟨makeBatches_length K hK0 items, hmain processor, fun g => ?_⟩
  rw [hmain (fun x => (Except.ok (g x) : Except E T)),
    run_tasks_eq_filterSuccesses, filterSuccesses_map_ok E g items]

/-- A processor that fails on item 5 and doubles every other item. -/
def demoProcessor (n : Nat) : Except String Nat :=
  if n = 5 then Except.error "transient failure" else Except.ok (n * 2)

/-- C6 witness: the theorem applied to items 1..10 with chunk size 3. -/
theorem C6_batch_splitter_witness :
    1 ≤ 3 ∧
    process_items 3 demoProcessor [1, 2, 3, 4, 5, 6, 7, 8, 9, 10] =
      run_tasks ([1, 2, 3, 4, 5, 6, 7, 8, 9, 10].map demoProcessor) :=
  ⟨by norm_num,
    (C6_batch_splitter 3 (by norm_num) [1, 2, 3, 4, 5, 6, 7, 8, 9, 10] demoProcessor).2.1⟩

/-- C8: the run summarizer's success rate is successes over total with a
divide-by-zero guard — 0 successes and 0 failures give rate 0, 3 successes
and 1 failure give rate 75 — and the upload success rate is guarded the
same way. -/
theorem C8_success_rate_guarded :
    success_rate ([] : List Unit) ([] : List Unit) = 0 ∧
    success_rate [(), (), ()] [()] = 75 ∧
    upload_success_rate [] = 0 ∧
    upload_success_rate [⟨true⟩, ⟨true⟩, ⟨true⟩, ⟨false⟩] = 75 := by
  refine ⟨?_, ?_, ?_, ?_⟩ <;>
    norm_num [success_rate, upload_success_rate, total_files, successful_uploads,
      List.filter] <;> simp

/-- C10: `upload_conversation` never lets an exception reach its caller —
a failure of conversation construction or of the remote
`create_conversation` call becomes a returned result with
`success = false` and the error message — and consequently its
`@async_retry(max_attempts=3)` wrapper observes no failure and performs
exactly one attempt, never retrying. -/
theorem C10_upload_never_raises {Conv : Type} (name : String)
    (construct : Except String Conv) (call : Conv → Except String CreateResponse) :
    tenacityRun 3 (fun _ =>
        (Except.ok (upload_conversation name construct call) :
          Except String UploadResult)) =
      RetryOutcome.ok (upload_conversation name construct call) 1 ∧
    (∀ e, construct = Except.error e →
      (upload_conversation name construct call).success = false ∧
      (upload_conversation name construct call).error = some e) ∧
    (∀ c e, construct = Except.ok c → call c = Except.error e →
      (upload_conversation name construct call).success = false ∧
      (upload_conversation name construct call).error = some e) := by
  refine ⟨rfl, fun e he => ?_, fun c e hc hcall => ?_⟩
  · subst he; exact ⟨rfl, rfl⟩
  · subst hc; simp [upload_conversation, hcall]

/-- A construction step that raises. -/
def demoConstructFail : Except String Unit := Except.error "construction boom"

/-- A remote create_conversation call that would succeed. -/
def demoCall : Unit → Except String CreateResponse :=
  fun _ => Except.ok { name := "convName", create_time := none, state := none, medium := none }

/-- The upload result for the failing construction step. -/
def demoUpload : UploadResult :=
  upload_conversation "projects/p/conversations/c1" demoConstructFail demoCall

/-- C10 witness: the theorem applied with a failing construction step. -/
theorem C10_upload_never_raises_witness :
    tenacityRun 3 (fun _ => (Except.ok demoUpload : Except String UploadResult)) =
      RetryOutcome.ok demoUpload 1 ∧
    demoUpload.success = false ∧
    demoUpload.error = some "construction boom" := by
  have h := C10_upload_never_raises "projects/p/conversations/c1" demoConstructFail demoCall
  exact ⟨h.1, (h.2.1 "construction boom" rfl).1, (h.2.1 "construction boom" rfl).2⟩

/-- C9 counterexample: with `base_delay = 1/2` the wait before the first
retry is 1 second — the `min = 1` floor of `wait_exponential` — while the
claim's cap-only formula predicts `1/2 * 2 ^ 0 = 1/2`. -/
theorem C9_counterexample :
    async_retry_wait (1 / 2) 1 = 1 ∧
    min ((1 / 2 : ℚ) * 2 ^ (1 - 1)) 60 = 1 / 2 ∧
    (1 : ℚ) ≠ 1 / 2 := by
  refine ⟨?_, by norm_num, by norm_num⟩
  norm_num [async_retry_wait, wait_exponential]

/-- C9 (amended): the wait before the k-th retry equals
`base_delay * 2 ^ (k - 1)` clamped to the interval [1, 60] seconds —
capped above at 60 and floored below at 1 second; with the
`delay_seconds = 2` policy the first waits are 2, 4, 8 seconds and the cap
binds from the sixth. -/
theorem C9_backoff_formula :
    (∀ (delay_seconds : ℚ) (k : Nat),
      async_retry_wait delay_seconds k =
        max 1 (min (delay_seconds * 2 ^ (k - 1)) 60)) ∧
    async_retry_wait 2 1 = 2 ∧
    async_retry_wait 2 2 = 4 ∧
    async_retry_wait 2 3 = 8 ∧
    async_retry_wait 2 6 = 60 := by
  refine ⟨fun d k => ?_, ?_, ?_, ?_, ?_⟩ <;>
    norm_num [async_retry_wait, wait_exponential]
